import Mathlib

/-!
# Verification of the wa-client-lite core against its specification

Shallow embedding of the Baileys-backed WhatsApp client
(`src/whatsapp-baileys.ts`) together with the thin routing layer
(`src/router.ts`).  Each section embeds one part of the source code as
executable Lean definitions and proves (or refutes) the corresponding
specification claims.

Conventions: machine integers of the source are modelled as `Nat`/`Int`
(none of the involved quantities can overflow a JS double in the ranges
exercised), JS `null`/`undefined` becomes `Option`, thrown exceptions
become `Except`, and the cooperative event-loop concurrency of Node is
modelled as a small-step relation whose steps are the synchronous
segments between `await` suspension points.
-/

namespace WAClient

/-! ## Connection close handling (`connection.update` handler)

Embeds the `connection === "close"` branch of the `connection.update`
listener installed in `connectToWhatsApp` (src/whatsapp-baileys.ts,
lines 287-351).  The handler classifies the disconnect reason and
schedules (or does not schedule) a reconnect via `setTimeout`.
The mutable field `this.reconnectAttempts` is passed explicitly;
`this.maxReconnectAttempts` is the constant 10 (line 72).
-/

/-- Classification of a disconnect, following the `if`/`else if` chain of
the close handler: `DisconnectReason.loggedOut`; restart-required or one
of the QR/stream error-message substrings; the four network codes
(`connectionClosed`/`connectionLost`/`connectionReplaced`/`timedOut`);
and the final `else` bucket. -/
inductive DisconnectClass
  | loggedOut
  | restartRequired
  | network
  | unknown
deriving DecidableEq

/-- `this.maxReconnectAttempts` (src/whatsapp-baileys.ts line 72). -/
def maxReconnectAttempts : Nat := 10

/-- Effect of one run of the close handler on `reconnectAttempts`,
together with the reconnect delay passed to `setTimeout`
(`none` when no `setTimeout` call is made).

Source, per branch:
* logged out: clear credentials, `setTimeout(..., 5000)`, counter untouched;
* restart required / QR expired: counter := 0, `setTimeout(..., 2000)`;
* network class: if counter < max then counter++ and
  `delay = Math.min(1000 * Math.pow(2, counter), 60000)`, else
  counter := 0 and `setTimeout(..., 300000)`;
* unknown: if counter < max then counter++ and
  `delay = Math.min(2000 * Math.pow(2, counter), 60000)`;
  there is no `else` branch, so past the cap nothing is scheduled and
  the counter is left unchanged. -/
def handleClose (attempts : Nat) : DisconnectClass → Nat × Option Nat
  | .loggedOut => (attempts, some 5000)
  | .restartRequired => (0, some 2000)
  | .network =>
      if attempts < maxReconnectAttempts then
        (attempts + 1, some (min (1000 * 2 ^ (attempts + 1)) 60000))
      else
        (0, some 300000)
  | .unknown =>
      if attempts < maxReconnectAttempts then
        (attempts + 1, some (min (2000 * 2 ^ (attempts + 1)) 60000))
      else
        (attempts, none)

/-- Value of `reconnectAttempts` after `n` consecutive disconnects of
class `c`, starting from a freshly opened connection
(`reconnectAttempts = 0`, reset by the `connection === "open"` branch). -/
def attemptsAfter (c : DisconnectClass) : Nat → Nat
  | 0 => 0
  | n + 1 => (handleClose (attemptsAfter c n) c).1

/-- Delay scheduled by the `n`-th (1-indexed) consecutive disconnect of
class `c` in such a run; `none` when the handler schedules nothing. -/
def delayAtStep (c : DisconnectClass) (n : Nat) : Option Nat :=
  (handleClose (attemptsAfter c (n - 1)) c).2

/-- C1: for a run of consecutive network-class disconnects started at a
fresh connection, the n-th disconnect (n = 1..10) schedules a reconnect
after `min(1000 * 2^n, 60000)` ms and leaves the attempt counter at n;
the 11th resets the counter to 0 and schedules a flat 300000 ms
reconnect. -/
theorem c1_network_backoff (n : Nat) (h1 : 1 ≤ n) (h2 : n ≤ 10) :
    delayAtStep .network n = some (min (1000 * 2 ^ n) 60000) ∧
    attemptsAfter .network n = n ∧
    delayAtStep .network 11 = some 300000 ∧
    attemptsAfter .network 11 = 0 := by
  interval_cases n <;> exact ⟨by decide, by decide, by decide, by decide⟩

theorem c1_network_backoff_witness :
    1 ≤ 7 ∧ 7 ≤ 10 ∧
      (delayAtStep .network 7 = some (min (1000 * 2 ^ 7) 60000) ∧
       attemptsAfter .network 7 = 7 ∧
       delayAtStep .network 11 = some 300000 ∧
       attemptsAfter .network 11 = 0) :=
  ⟨by decide, by decide, c1_network_backoff 7 (by decide) (by decide)⟩

/-- C6 counterexample: the claim predicts that past the 10-attempt cap an
unknown-class disconnect schedules a flat 300000 ms reconnect and resets
the counter, i.e. `handleClose 10 .unknown = (0, some 300000)`.  In the
code the unknown branch has no over-cap arm: at `attempts = 10` it
schedules nothing and leaves the counter at 10. -/
theorem c6_unknown_over_cap_counterexample :
    handleClose 10 .unknown = (10, none) ∧
    handleClose 10 .unknown ≠ (0, some 300000) ∧
    delayAtStep .unknown 11 = none ∧
    attemptsAfter .unknown 11 = 10 := by
  decide

/-- C6 amended: the n-th consecutive unknown-class disconnect
(n = 1..10) schedules a reconnect after `min(2000 * 2^n, 60000)` ms;
past the 10-attempt cap the handler schedules no reconnect at all and
leaves the counter unchanged (there is no flat 5-minute retry and no
counter reset in the unknown branch). -/
theorem c6_unknown_backoff_amended (n : Nat) (h1 : 1 ≤ n) (h2 : n ≤ 10) :
    delayAtStep .unknown n = some (min (2000 * 2 ^ n) 60000) ∧
    attemptsAfter .unknown n = n ∧
    delayAtStep .unknown 11 = none ∧
    attemptsAfter .unknown 11 = 10 := by
  interval_cases n <;> exact ⟨by decide, by decide, by decide, by decide⟩

theorem c6_unknown_backoff_amended_witness :
    1 ≤ 5 ∧ 5 ≤ 10 ∧
      (delayAtStep .unknown 5 = some (min (2000 * 2 ^ 5) 60000) ∧
       attemptsAfter .unknown 5 = 5 ∧
       delayAtStep .unknown 11 = none ∧
       attemptsAfter .unknown 11 = 10) :=
  ⟨by decide, by decide, c6_unknown_backoff_amended 5 (by decide) (by decide)⟩

/-! ## Per-contact task queue (`enqueueProcessing` / `processContactQueue`)

Embeds the per-key queue of src/whatsapp-baileys.ts (lines 113-143) for
one fixed contact key.  `contactQueues.get(key)` is `queue`,
`contactProcessing.get(key)` is `processing`.  A running invocation of
the async function `processContactQueue` that got past the
`if (this.contactProcessing.get(...)) return` guard is a *drain*; its
program counter is either at the `while` test (`loopCheck`) or suspended
at `await task()` (`running t`).  Tasks are identified by natural
numbers.  Node's event loop interleaves only at `await` points, so the
guard-check plus flag-set of `processContactQueue`, and equally the
final `while` test plus `contactProcessing.set(..., false)`, are single
atomic steps.

The source has no `try`/`catch` around `await task()`: a rejecting task
makes the whole `processContactQueue` invocation reject.  Its promise is
not awaited by `enqueueProcessing`, so the rejection only removes the
drain; `processing` is left `true`.  The step `failTask` models this.

The ghost fields `started` (tasks shifted off the queue, in shift
order) and `arrived` (all tasks ever enqueued, in enqueue order) record
the history needed to state ordering. -/

/-- Program counter of one active drain loop. -/
inductive DrainPC
  | loopCheck
  | running (t : Nat)
deriving DecidableEq

/-- State of the queue machinery for one contact key. -/
structure QueueState where
  queue : List Nat
  processing : Bool
  drains : List DrainPC
  started : List Nat
  arrived : List Nat
deriving DecidableEq

/-- Initial state: no queue entry, flag unset, no drain. -/
def initQueueState : QueueState := ⟨[], false, [], [], []⟩

/-- `enqueueProcessing`: push the task, then call `processContactQueue`,
which returns at once when the flag is set and otherwise sets the flag
and begins a new drain loop. -/
def enqueueTask (s : QueueState) (t : Nat) : QueueState :=
  if s.processing then
    { s with queue := s.queue ++ [t], arrived := s.arrived ++ [t] }
  else
    { queue := s.queue ++ [t]
      processing := true
      drains := s.drains ++ [.loopCheck]
      started := s.started
      arrived := s.arrived ++ [t] }

/-- Tasks currently being awaited by some drain. -/
def inFlight (s : QueueState) : List Nat :=
  s.drains.filterMap fun pc =>
    match pc with
    | .running t => some t
    | .loopCheck => none

/-- One event-loop step of the queue machinery (for the fixed key). -/
inductive QStep : QueueState → QueueState → Prop
  | enqueue (s : QueueState) (t : Nat) : QStep s (enqueueTask s t)
  | startTask (s : QueueState) (t : Nat) (rest : List Nat)
      (d₁ d₂ : List DrainPC)
      (hd : s.drains = d₁ ++ .loopCheck :: d₂)
      (hq : s.queue = t :: rest) :
      QStep s { s with
        queue := rest
        drains := d₁ ++ .running t :: d₂
        started := s.started ++ [t] }
  | finishTask (s : QueueState) (t : Nat) (d₁ d₂ : List DrainPC)
      (hd : s.drains = d₁ ++ .running t :: d₂) :
      QStep s { s with drains := d₁ ++ .loopCheck :: d₂ }
  | failTask (s : QueueState) (t : Nat) (d₁ d₂ : List DrainPC)
      (hd : s.drains = d₁ ++ .running t :: d₂) :
      QStep s { s with drains := d₁ ++ d₂ }
  | exitDrain (s : QueueState) (d₁ d₂ : List DrainPC)
      (hd : s.drains = d₁ ++ .loopCheck :: d₂)
      (hq : s.queue = []) :
      QStep s { s with drains := d₁ ++ d₂, processing := false }

/-- States reachable from the initial state. -/
inductive QReach : QueueState → Prop
  | init : QReach initQueueState
  | step {s s' : QueueState} : QReach s → QStep s s' → QReach s'

/-- Reachability from an arbitrary state. -/
def QReachFrom (s : QueueState) (s' : QueueState) : Prop :=
  Relation.ReflTransGen QStep s s'

/-- The inductive invariant of the queue machinery. -/
def QInv (s : QueueState) : Prop :=
  (s.processing = false → s.drains = []) ∧
  s.drains.length ≤ 1 ∧
  s.arrived = s.started ++ s.queue

theorem qinv_init : QInv initQueueState := by
  refine ⟨fun _ => rfl, by decide, rfl⟩

theorem qinv_step {s s' : QueueState} (hinv : QInv s) (hstep : QStep s s') :
    QInv s' := by
  obtain ⟨hflag, hlen, harr⟩ := hinv
  cases hstep with
  | enqueue t =>
      unfold enqueueTask
      by_cases hp : s.processing
      · simp only [hp, if_true]
        refine ⟨fun h => ?_, hlen, by simp [harr]⟩
        simp [hp] at h
      · simp only [hp, if_neg, Bool.false_eq_true, if_false]
        have hd : s.drains = [] := hflag (by simpa using hp)
        refine ⟨fun h => by simp at h, by simp [hd], by simp [harr]⟩
  | startTask t rest d₁ d₂ hd hq =>
      have hne : s.drains ≠ [] := by simp [hd]
      have hp : s.processing = true := by
        by_contra hc
        exact hne (hflag (by simpa using hc))
      refine ⟨fun h => by simp [hp] at h, ?_, ?_⟩
      · simpa [hd] using hlen
      · simp only [harr, hq]
        simp
  | finishTask t d₁ d₂ hd =>
      have hne : s.drains ≠ [] := by simp [hd]
      have hp : s.processing = true := by
        by_contra hc
        exact hne (hflag (by simpa using hc))
      refine ⟨fun h => by simp [hp] at h, by simpa [hd] using hlen, harr⟩
  | failTask t d₁ d₂ hd =>
      have hne : s.drains ≠ [] := by simp [hd]
      have hp : s.processing = true := by
        by_contra hc
        exact hne (hflag (by simpa using hc))
      refine ⟨fun h => by simp [hp] at h, ?_, harr⟩
      · have := hlen
        rw [hd] at this
        simp only [List.length_append, List.length_cons] at this
        simp only [List.length_append]
        omega
  | exitDrain d₁ d₂ hd hq =>
      have h1 : d₁ = [] ∧ d₂ = [] := by
        have := hlen
        rw [hd] at this
        simp only [List.length_append, List.length_cons] at this
        constructor
        · exact List.length_eq_zero.mp (by omega)
        · exact List.length_eq_zero.mp (by omega)
      refine ⟨fun _ => by simp [h1.1, h1.2], by simp [h1.1, h1.2], harr⟩

theorem qinv_reach {s : QueueState} (h : QReach s) : QInv s := by
  induction h with
  | init => exact qinv_init
  | step _ hstep ih => exact qinv_step ih hstep

/-- C2: in every reachable state of the per-key queue, at most one drain
loop is active for the key, at most one of its tasks is being awaited at
a time, the sequence of tasks taken off the queue is a prefix of the
enqueue order (FIFO), and enqueueing while a drain is active only
appends to the queue — the drains are left untouched, so no second
drain loop is started. -/
theorem c2_per_key_fifo (s : QueueState) (h : QReach s) :
    s.drains.length ≤ 1 ∧
    (inFlight s).length ≤ 1 ∧
    s.started <+: s.arrived ∧
    (∀ t, s.processing = true →
      (enqueueTask s t).drains = s.drains ∧
      (enqueueTask s t).processing = true ∧
      (enqueueTask s t).queue = s.queue ++ [t]) := by
  obtain ⟨hflag, hlen, harr⟩ := qinv_reach h
  refine ⟨hlen, ?_, ⟨s.queue, harr.symm⟩, ?_⟩
  · exact le_trans (List.length_filterMap_le _ _) hlen
  · intro t hp
    refine ⟨?_, ?_, ?_⟩ <;> simp [enqueueTask, hp]

theorem c2_per_key_fifo_witness :
    (enqueueTask initQueueState 1).drains.length ≤ 1 ∧
    (inFlight (enqueueTask initQueueState 1)).length ≤ 1 ∧
    (enqueueTask initQueueState 1).started <+:
      (enqueueTask initQueueState 1).arrived ∧
    (enqueueTask (enqueueTask initQueueState 1) 2).drains =
      (enqueueTask initQueueState 1).drains ∧
    (enqueueTask (enqueueTask initQueueState 1) 2).queue =
      (enqueueTask initQueueState 1).queue ++ [2] := by
  have h := c2_per_key_fifo (enqueueTask initQueueState 1)
    (QReach.step QReach.init (QStep.enqueue initQueueState 1))
  exact ⟨h.1, h.2.1, h.2.2.1, (h.2.2.2 2 rfl).1, (h.2.2.2 2 rfl).2.2⟩

/-- Once no drain is active for a key while the flag is still set (the
situation left behind by a rejected task), no step can ever start a
drain again: the guard in `processContactQueue` sees the stale flag and
returns. -/
theorem drainless_stuck_step {s s' : QueueState}
    (hd : s.drains = []) (hp : s.processing = true) (hstep : QStep s s') :
    s'.drains = [] ∧ s'.processing = true ∧ s'.started = s.started := by
  cases hstep with
  | enqueue t => refine ⟨?_, ?_, ?_⟩ <;> simp [enqueueTask, hp, hd]
  | startTask t rest d₁ d₂ hdr hq => rw [hd] at hdr; simp at hdr
  | finishTask t d₁ d₂ hdr => rw [hd] at hdr; simp at hdr
  | failTask t d₁ d₂ hdr => rw [hd] at hdr; simp at hdr
  | exitDrain d₁ d₂ hdr hq => rw [hd] at hdr; simp at hdr

theorem drainless_stuck {s u : QueueState}
    (hd : s.drains = []) (hp : s.processing = true) (hr : QReachFrom s u) :
    u.drains = [] ∧ u.processing = true ∧ u.started = s.started := by
  induction hr with
  | refl => exact ⟨hd, hp, rfl⟩
  | tail hab hstep ih =>
      obtain ⟨h1, h2, h3⟩ := ih
      obtain ⟨g1, g2, g3⟩ := drainless_stuck_step h1 h2 hstep
      exact ⟨g1, g2, g3.trans h3⟩

/-- Intermediate states of the concrete failing trace: enqueue task 1,
the drain starts awaiting it, task 2 is enqueued behind it, then the
promise of task 1 rejects. -/
def qs1 : QueueState := ⟨[1], true, [.loopCheck], [], [1]⟩

def qs2 : QueueState := ⟨[], true, [.running 1], [1], [1]⟩

def qs3 : QueueState := ⟨[2], true, [.running 1], [1], [1, 2]⟩

/-- State after the promise of task 1 rejects: task 2 still queued, flag
still set, no drain left alive. -/
def stuckState : QueueState := ⟨[2], true, [], [1], [1, 2]⟩

theorem stuckState_reachable : QReach stuckState :=
  QReach.step
    (QReach.step
      (QReach.step
        (QReach.step QReach.init (QStep.enqueue initQueueState 1))
        (QStep.startTask qs1 1 [] [] [] rfl rfl))
      (QStep.enqueue qs2 2))
    (QStep.failTask qs3 1 [] [] rfl)

/-- C3 counterexample: after task 1 is enqueued, starts running, task 2
is enqueued behind it and then the promise of task 1 rejects, the
reachable state `stuckState` still holds task 2 in the queue with the
currently-draining flag set; in every state reachable from it no
further task is ever started (so task 2 is never executed) and the flag
is never cleared — the drain loop does not continue past a rejected
task, contradicting the claim. -/
theorem c3_rejection_counterexample :
    QReach stuckState ∧
    stuckState.queue = [2] ∧
    stuckState.processing = true ∧
    ∀ u, QReachFrom stuckState u →
      u.started = [1] ∧ 2 ∉ u.started ∧ u.processing = true ∧
      u.drains = [] := by
  refine ⟨stuckState_reachable, rfl, rfl, fun u hu => ?_⟩
  obtain ⟨h1, h2, h3⟩ := drainless_stuck rfl rfl hu
  refine ⟨h3, ?_, h2, h1⟩
  rw [h3]
  decide

/-- C3 amended: if the promise of the task a drain is awaiting rejects,
the drain loop for that key halts instead of continuing: the rejection
is a legal step that removes the only drain while leaving the
currently-draining flag set, and from the resulting state every
reachable state still has the flag set, no drain, and an unchanged
`started` history — tasks enqueued after the failing task are never
picked up and the flag is never cleared. -/
theorem c3_amended_drain_halts (s u : QueueState) (t : Nat)
    (hr : QReach s) (hd : s.drains = [DrainPC.running t])
    (hu : QReachFrom { s with drains := ([] : List DrainPC) } u) :
    QStep s { s with drains := ([] : List DrainPC) } ∧
    u.processing = true ∧ u.drains = [] ∧ u.started = s.started := by
  obtain ⟨hflag, hlen, harr⟩ := qinv_reach hr
  have hp : s.processing = true := by
    by_contra hc
    have : s.drains = [] := hflag (by simpa using hc)
    rw [hd] at this
    simp at this
  have hstep : QStep s { s with drains := ([] : List DrainPC) } := by
    have h := QStep.failTask s t [] [] (by simpa using hd)
    simpa using h
  have hd2 : ({ s with drains := ([] : List DrainPC) } : QueueState).drains
      = [] := rfl
  have hp2 :
      ({ s with drains := ([] : List DrainPC) } : QueueState).processing
      = true := hp
  obtain ⟨h1, h2, h3⟩ := drainless_stuck hd2 hp2 hu
  exact ⟨hstep, h2, h1, h3⟩

theorem c3_amended_drain_halts_witness :
    (QStep qs3 { qs3 with drains := ([] : List DrainPC) } ∧
     stuckState.processing = true ∧ stuckState.drains = [] ∧
     stuckState.started = qs3.started) := by
  have hreach3 : QReach qs3 :=
    QReach.step
      (QReach.step
        (QReach.step QReach.init (QStep.enqueue initQueueState 1))
        (QStep.startTask qs1 1 [] [] [] rfl rfl))
      (QStep.enqueue qs2 2)
  exact c3_amended_drain_halts qs3 stuckState 1 hreach3 rfl
    Relation.ReflTransGen.refl

/-! ## Message persistence (`saveMessage` / `saveHistoryMessage`)

Embeds the SQL effect of the two persistence functions on a table keyed
by the message id.

`saveMessage` (src/whatsapp-baileys.ts lines 1897-1983) runs
`INSERT INTO messages (...) VALUES (...) ON DUPLICATE KEY UPDATE
MENSAGEM = VALUES(MENSAGEM), TIPO = VALUES(TIPO), TIMESTAMP =
VALUES(TIMESTAMP), FROM_ME = VALUES(FROM_ME), DATA_HORA =
VALUES(DATA_HORA), STATUS = VALUES(STATUS), ARQUIVO_TIPO =
VALUES(ARQUIVO_TIPO), ARQUIVO_NOME_ORIGINAL =
VALUES(ARQUIVO_NOME_ORIGINAL), ARQUIVO_NOME = VALUES(ARQUIVO_NOME),
ARQUIVO_ARMAZENAMENTO = VALUES(ARQUIVO_ARMAZENAMENTO), SYNC_MESSAGE =
VALUES(SYNC_MESSAGE), SYNC_STATUS = VALUES(SYNC_STATUS)`: on a
duplicate id the listed non-key columns take the incoming values while
`ID_REFERENCIA`, `INSTANCE` and `FROM` keep their stored values.

`saveHistoryMessage` (lines 845-944) runs `INSERT IGNORE` both into the
ERP table `w_mensagens` and into the local `messages` table: on a
duplicate id the statement is a complete no-op. -/

/-- A row of the local `messages` table (the columns named in the two
insert statements). -/
structure MessageRow where
  ID : String
  MENSAGEM : String
  ID_REFERENCIA : Option String
  TIPO : Option String
  TIMESTAMP : Option Int
  FROM_ME : Bool
  DATA_HORA : Int
  STATUS : Option String
  ARQUIVO_TIPO : Option String
  ARQUIVO_NOME_ORIGINAL : Option String
  ARQUIVO_NOME : Option String
  ARQUIVO_ARMAZENAMENTO : Option String
  SYNC_MESSAGE : Bool
  SYNC_STATUS : Bool
  INSTANCE : String
  FROM : String
deriving DecidableEq

/-- Whether the table already holds a row with the given primary key. -/
def containsId (tbl : List MessageRow) (id : String) : Bool :=
  tbl.any fun x => x.ID == id

/-- The `ON DUPLICATE KEY UPDATE` clause of `saveMessage`: the listed
columns take the incoming values, every column not listed
(`ID_REFERENCIA`, `INSTANCE`, `FROM`) keeps the stored value. -/
def saveMessageUpdateRow (old r : MessageRow) : MessageRow :=
  { old with
    MENSAGEM := r.MENSAGEM
    TIPO := r.TIPO
    TIMESTAMP := r.TIMESTAMP
    FROM_ME := r.FROM_ME
    DATA_HORA := r.DATA_HORA
    STATUS := r.STATUS
    ARQUIVO_TIPO := r.ARQUIVO_TIPO
    ARQUIVO_NOME_ORIGINAL := r.ARQUIVO_NOME_ORIGINAL
    ARQUIVO_NOME := r.ARQUIVO_NOME
    ARQUIVO_ARMAZENAMENTO := r.ARQUIVO_ARMAZENAMENTO
    SYNC_MESSAGE := r.SYNC_MESSAGE
    SYNC_STATUS := r.SYNC_STATUS }

/-- A plain `INSERT` (what neither function uses): a duplicate primary
key is an error, modelled as `none`. -/
def insertStrict (tbl : List MessageRow) (r : MessageRow) :
    Option (List MessageRow) :=
  if containsId tbl r.ID then none else some (tbl ++ [r])

/-- `INSERT IGNORE`, as used by `saveHistoryMessage`. -/
def insertIgnore (tbl : List MessageRow) (r : MessageRow) :
    List MessageRow :=
  if containsId tbl r.ID then tbl else tbl ++ [r]

/-- `INSERT ... ON DUPLICATE KEY UPDATE`, as used by `saveMessage`. -/
def insertOnDupUpdate (tbl : List MessageRow) (r : MessageRow) :
    List MessageRow :=
  if containsId tbl r.ID then
    tbl.map fun x => if x.ID = r.ID then saveMessageUpdateRow x r else x
  else
    tbl ++ [r]

/-- First insert of message id `"ABC123"`. -/
def c4row1 : MessageRow :=
  ⟨"ABC123", "first body", some "REF1", some "chat", some 1000, false,
   1000, some "RECEIVED", none, none, none, none, false, false,
   "infotec_5511", "5511988887777"⟩

/-- Second insert with the same id and different non-key columns. -/
def c4row2 : MessageRow :=
  ⟨"ABC123", "second body", none, some "chat", some 2000, false,
   2000, some "READ", none, none, none, none, true, true,
   "infotec_5511", "5511988887777"⟩

/-- C4 counterexample: on the live path (`saveMessage`), inserting the
same id twice does not leave the previously stored non-key columns
unchanged — the second insert overwrites them.  With `c4row1` stored,
persisting `c4row2` (same id, body "second body") yields a table whose
single row carries the second body and status, not the first. -/
theorem c4_overwrite_counterexample :
    (insertOnDupUpdate [c4row1] c4row2).map (fun x => x.MENSAGEM)
      = ["second body"] ∧
    (insertOnDupUpdate [c4row1] c4row2).map (fun x => x.STATUS)
      = [some "READ"] ∧
    insertOnDupUpdate [c4row1] c4row2 ≠ [c4row1] ∧
    (insertOnDupUpdate [c4row1] c4row2).length = 1 := by
  decide

/-- C4 amended: persisting a message whose id already exists never
errors and never adds a row on either path (while a plain `INSERT`
would error there).  On the history path (`saveHistoryMessage`,
`INSERT IGNORE`) the second insert is a complete no-op, leaving all
stored columns unchanged.  On the live path (`saveMessage`,
`INSERT ... ON DUPLICATE KEY UPDATE`) the second insert overwrites the
listed non-key columns with the incoming values (last writer wins),
keeps `ID_REFERENCIA`, `INSTANCE` and `FROM` from the stored row, and
leaves rows with other ids untouched. -/
theorem c4_persistence_amended (tbl : List MessageRow) (r old : MessageRow)
    (hmem : old ∈ tbl) (hid : old.ID = r.ID) :
    insertStrict tbl r = none ∧
    insertIgnore tbl r = tbl ∧
    (insertOnDupUpdate tbl r).length = tbl.length ∧
    (∀ x ∈ tbl, x.ID ≠ r.ID → x ∈ insertOnDupUpdate tbl r) ∧
    saveMessageUpdateRow old r ∈ insertOnDupUpdate tbl r ∧
    (saveMessageUpdateRow old r).MENSAGEM = r.MENSAGEM ∧
    (saveMessageUpdateRow old r).STATUS = r.STATUS ∧
    (saveMessageUpdateRow old r).ID_REFERENCIA = old.ID_REFERENCIA ∧
    (saveMessageUpdateRow old r).FROM = old.FROM := by
  have hc : containsId tbl r.ID = true := by
    simp only [containsId, List.any_eq_true, beq_iff_eq]
    exact ⟨old, hmem, hid⟩
  refine ⟨?_, ?_, ?_, ?_, ?_, rfl, rfl, rfl, rfl⟩
  · simp [insertStrict, hc]
  · simp [insertIgnore, hc]
  · simp [insertOnDupUpdate, hc]
  · intro x hx hne
    simp only [insertOnDupUpdate, hc, if_true]
    exact List.mem_map.mpr ⟨x, hx, by simp [hne]⟩
  · simp only [insertOnDupUpdate, hc, if_true]
    exact List.mem_map.mpr ⟨old, hmem, by simp [hid]⟩

theorem c4_persistence_amended_witness :
    c4row1 ∈ [c4row1] ∧ c4row1.ID = c4row2.ID ∧
    (insertStrict [c4row1] c4row2 = none ∧
     insertIgnore [c4row1] c4row2 = [c4row1] ∧
     (insertOnDupUpdate [c4row1] c4row2).length = ([c4row1] : List MessageRow).length ∧
     saveMessageUpdateRow c4row1 c4row2 ∈ insertOnDupUpdate [c4row1] c4row2 ∧
     (saveMessageUpdateRow c4row1 c4row2).MENSAGEM = c4row2.MENSAGEM ∧
     (saveMessageUpdateRow c4row1 c4row2).ID_REFERENCIA = c4row1.ID_REFERENCIA) := by
  have h := c4_persistence_amended [c4row1] c4row2 c4row1
    (by decide) (by decide)
  exact ⟨by decide, by decide,
    h.1, h.2.1, h.2.2.1, h.2.2.2.2.1, h.2.2.2.2.2.1, h.2.2.2.2.2.2.2.1⟩

/-! ## Contact resolution and link upsert (`saveContactToDatabase`)

Embeds the persistence part of `saveContactToDatabase`
(src/whatsapp-baileys.ts lines 1358-1467).  After validating the jid
and extracting the number, the function queries the CRM `clientes`
table and, on a miss, the `contatos` table; the two query outcomes are
passed in as parameters here.  It then runs

`INSERT INTO w_clientes_numeros (CODIGO_CLIENTE, NOME, NUMERO) VALUES
(?, ?, ?) ON DUPLICATE KEY UPDATE CODIGO_CLIENTE =
IF(VALUES(CODIGO_CLIENTE) != -1, VALUES(CODIGO_CLIENTE),
CODIGO_CLIENTE), NOME = IF(? IS NOT NULL, ?, NOME)`

with parameters `[customerCode, finalName, number, dbContactName,
dbContactName]`.  JS `x || y` on strings and numbers treats `""`, `0`
and `null` as falsy; `jsOrStr` and `jsOrInt` reproduce that. -/

/-- A row of the `w_clientes_numeros` link table (`NUMERO` is the
unique key). -/
structure ContactLinkRow where
  CODIGO_CLIENTE : Int
  NOME : Option String
  NUMERO : String
deriving DecidableEq

/-- JS `x || y` for an optional string (empty string is falsy). -/
def jsOrStr (x y : Option String) : Option String :=
  match x with
  | some s => if s = "" then y else some s
  | none => y

/-- JS `x || d` for an optional number (`0` is falsy). -/
def jsOrInt (x : Option Int) (d : Int) : Int :=
  match x with
  | some v => if v = 0 then d else v
  | none => d

/-- The `ON DUPLICATE KEY UPDATE` clause of the link upsert: the stored
`CODIGO_CLIENTE` is replaced only when the incoming value is not -1,
and the stored `NOME` is replaced only when `dbContactName` (the
CRM-sourced name) is not null. -/
def contactLinkUpdateRow (x : ContactLinkRow) (customerCode : Int)
    (dbContactName : Option String) : ContactLinkRow :=
  { x with
    CODIGO_CLIENTE :=
      if customerCode ≠ -1 then customerCode else x.CODIGO_CLIENTE
    NOME :=
      match dbContactName with
      | some n => some n
      | none => x.NOME }

/-- The full insert-or-update on the link table. -/
def upsertContactLink (tbl : List ContactLinkRow) (customerCode : Int)
    (finalName : String) (number : String) (dbContactName : Option String) :
    List ContactLinkRow :=
  if tbl.any (fun x => x.NUMERO == number) then
    tbl.map fun x =>
      if x.NUMERO = number then contactLinkUpdateRow x customerCode dbContactName
      else x
  else
    tbl ++ [⟨customerCode, some finalName, number⟩]

/-- The resolution body of `saveContactToDatabase` from the CRM queries
to the upsert.  `customerRow` is the `CODIGO` of a `clientes` hit;
`contactRow` is the `(CODIGO_CLIENTE, NOME)` of a `contatos` hit (only
consulted on a customer miss, and filtered through `|| -1` and
`|| null`); `name`/`notify` are the provider-supplied contact fields. -/
def saveContactToDatabase (tbl : List ContactLinkRow)
    (customerRow : Option Int) (contactRow : Option (Option Int × Option String))
    (name notify : Option String) (number : String) : List ContactLinkRow :=
  let resolved : Int × Option String :=
    match customerRow with
    | some codigo => (codigo, none)
    | none =>
        match contactRow with
        | some (cc, nome) => (jsOrInt cc (-1), jsOrStr nome none)
        | none => (-1, none)
  let customerCode := resolved.1
  let dbContactName := resolved.2
  let contactName := jsOrStr name (jsOrStr notify none)
  let finalName :=
    match jsOrStr dbContactName (jsOrStr contactName (some number)) with
    | some s => s
    | none => number
  upsertContactLink tbl customerCode finalName number dbContactName

/-- The concrete three-step resolution of the claim: the same number
first resolves with no CRM hit (customerCode -1), then with a customer
hit 42, then again with no CRM hit. -/
def c5SequenceResult : List ContactLinkRow :=
  saveContactToDatabase
    (saveContactToDatabase
      (saveContactToDatabase [] none none none none "5511988887777")
      (some 42) none none none "5511988887777")
    none none none none "5511988887777"

/-- C5: once a stored `customerCode` is some value other than -1, an
upsert for the same number carrying `customerCode = -1` leaves it
unchanged, and an upsert carrying a null CRM-sourced name never
overwrites a previously-set name with null; concretely, resolving with
-1, then 42, then -1 again stores 42. -/
theorem c5_contact_upsert_monotone (tbl : List ContactLinkRow)
    (x : ContactLinkRow) (c : Int) (fn num : String) (dbn : Option String)
    (hx : x ∈ tbl) (hnum : x.NUMERO = num) :
    (contactLinkUpdateRow x (-1) dbn).CODIGO_CLIENTE = x.CODIGO_CLIENTE ∧
    (dbn = none → (contactLinkUpdateRow x c dbn).NOME = x.NOME) ∧
    (∀ nm, x.NOME = some nm → (contactLinkUpdateRow x c dbn).NOME ≠ none) ∧
    contactLinkUpdateRow x c dbn ∈ upsertContactLink tbl c fn num dbn ∧
    (∀ y ∈ upsertContactLink tbl c fn num dbn,
      y.NUMERO ≠ num → y ∈ tbl) ∧
    c5SequenceResult.map (fun y => y.CODIGO_CLIENTE) = [42] := by
  have hc : (tbl.any fun y => y.NUMERO == num) = true := by
    simp only [List.any_eq_true, beq_iff_eq]
    exact ⟨x, hx, hnum⟩
  refine ⟨by simp [contactLinkUpdateRow], ?_, ?_, ?_, ?_, by decide⟩
  · intro h
    simp [contactLinkUpdateRow, h]
  · intro nm hnm
    cases dbn with
    | none => simp [contactLinkUpdateRow, hnm]
    | some n => simp [contactLinkUpdateRow]
  · simp only [upsertContactLink, hc, if_true]
    exact List.mem_map.mpr ⟨x, hx, by simp [hnum]⟩
  · intro y hy hne
    simp only [upsertContactLink, hc, if_true] at hy
    obtain ⟨z, hz, hzy⟩ := List.mem_map.mp hy
    by_cases hzn : z.NUMERO = num
    · exfalso
      apply hne
      rw [← hzy]
      simp [hzn, contactLinkUpdateRow]
    · rw [← hzy]
      simpa [hzn] using hz

theorem c5_contact_upsert_monotone_witness :
    (⟨42, some "Alice", "5511988887777"⟩ : ContactLinkRow) ∈
      [(⟨42, some "Alice", "5511988887777"⟩ : ContactLinkRow)] ∧
    (⟨42, some "Alice", "5511988887777"⟩ : ContactLinkRow).NUMERO
      = "5511988887777" ∧
    (contactLinkUpdateRow ⟨42, some "Alice", "5511988887777"⟩ (-1)
      none).CODIGO_CLIENTE = (42 : Int) ∧
    c5SequenceResult.map (fun y => y.CODIGO_CLIENTE) = [42] := by
  have h := c5_contact_upsert_monotone
    [(⟨42, some "Alice", "5511988887777"⟩ : ContactLinkRow)]
    ⟨42, some "Alice", "5511988887777"⟩ (-1) "Alice" "5511988887777" none
    (by decide) (by decide)
  exact ⟨by decide, by decide, h.1, h.2.2.2.2.2⟩

/-! ## Send operations (`sendText` / `sendFile`)

Embeds the control flow of `sendText` (src/whatsapp-baileys.ts lines
1630-1703) and `sendFile` (lines 1705-1800).  Both open with

`if (!this.client) throw new Error("Client not connected")` and
`if (!this.isReady || !this.isAuthenticated) throw new Error("Connection
not ready. Please wait for authentication.")`.

`sendText` then probes `client.onWhatsApp(jid)` and returns `undefined`
when `result?.exists` is falsy; `sendFile` performs no such probe.  Both
bodies are wrapped in a `try`/`catch` that logs the error and returns
`undefined`, so every thrown error reaches the caller as the value
`undefined`.  The environment carries the session flags, the probe
result and the provider send/parse results; the returned
`ParsedMessage` is abstracted to its id string. -/

/-- Inputs consulted by one send call. -/
structure SendEnv where
  clientConnected : Bool
  isReady : Bool
  isAuthenticated : Bool
  onWhatsAppExists : Bool
  sentMessage : Option String
  parsedMessage : Option String
deriving DecidableEq

def clientNotConnectedMsg : String := "Client not connected"

def connectionNotReadyMsg : String :=
  "Connection not ready. Please wait for authentication."

/-- The `try` block of `sendText`; `Except.error` is a thrown error. -/
def sendTextBody (env : SendEnv) : Except String (Option String) :=
  if !env.clientConnected then .error clientNotConnectedMsg
  else if !env.isReady || !env.isAuthenticated then
    .error connectionNotReadyMsg
  else if !env.onWhatsAppExists then .ok none
  else
    match env.sentMessage with
    | some _ => .ok env.parsedMessage
    | none => .ok none

/-- The `try` block of `sendFile`: same guards, no existence probe. -/
def sendFileBody (env : SendEnv) : Except String (Option String) :=
  if !env.clientConnected then .error clientNotConnectedMsg
  else if !env.isReady || !env.isAuthenticated then
    .error connectionNotReadyMsg
  else
    match env.sentMessage with
    | some _ => .ok env.parsedMessage
    | none => .ok none

/-- What the caller of `sendText` receives: the `catch` block logs the
error and returns `undefined`. -/
def sendText (env : SendEnv) : Option String :=
  match sendTextBody env with
  | .ok v => v
  | .error _ => none

/-- What the caller of `sendFile` receives. -/
def sendFile (env : SendEnv) : Option String :=
  match sendFileBody env with
  | .ok v => v
  | .error _ => none

/-- A connected but not-ready session about to send a deliverable
message. -/
def envNotReady : SendEnv := ⟨true, false, false, true, some "M1", some "M1"⟩

/-- A ready session sending to a number whose existence probe reports
non-existence. -/
def envNotOnWhatsApp : SendEnv := ⟨true, true, true, false, some "M1", some "M1"⟩

/-- C7 counterexample: the claim says a caller sending while the session
is not ready receives an explicit failure distinguishable from the
contact-not-reachable outcome.  In the code the internal
"Connection not ready" error is caught inside `sendText`/`sendFile`,
which then return `undefined` — exactly the value returned when the
existence probe reports non-existence — so the two outcomes the caller
receives are identical. -/
theorem c7_indistinguishable_counterexample :
    sendTextBody envNotReady = .error connectionNotReadyMsg ∧
    sendText envNotReady = none ∧
    sendText envNotOnWhatsApp = none ∧
    sendText envNotReady = sendText envNotOnWhatsApp ∧
    sendFile envNotReady = none :=
  ⟨rfl, rfl, rfl, rfl, rfl⟩

/-- C7 amended: while the session is not ready, `sendText` and
`sendFile` internally raise the distinct "Connection not ready" error
before any provider interaction (the probe and send results are never
consulted), and `sendText` reaches its contact-not-reachable return
only while ready, after the existence probe reports non-existence; but
both operations catch every error and return `undefined` to the
caller, the same value as the contact-not-reachable outcome, so the
caller cannot distinguish the two from the returned value.  `sendFile`
performs no existence probe at all. -/
theorem c7_send_not_ready_amended (env : SendEnv)
    (hc : env.clientConnected = true) :
    ((env.isReady = false ∨ env.isAuthenticated = false) →
      (∀ b m p, sendTextBody
          { env with onWhatsAppExists := b, sentMessage := m,
                     parsedMessage := p }
        = .error connectionNotReadyMsg) ∧
      sendFileBody env = .error connectionNotReadyMsg ∧
      sendText env = none ∧ sendFile env = none) ∧
    (env.isReady = true → env.isAuthenticated = true →
      env.onWhatsAppExists = false →
      sendTextBody env = .ok none ∧ sendText env = none) ∧
    (∀ b, sendFileBody { env with onWhatsAppExists := b }
      = sendFileBody env) := by
  refine ⟨fun hnr => ⟨fun b m p => ?_, ?_, ?_, ?_⟩, fun h1 h2 h3 => ?_, fun b => ?_⟩
  · rcases hnr with h | h <;>
      simp [sendTextBody, hc, h]
  · rcases hnr with h | h <;>
      simp [sendFileBody, hc, h]
  · rcases hnr with h | h <;>
      simp [sendText, sendTextBody, hc, h]
  · rcases hnr with h | h <;>
      simp [sendFile, sendFileBody, hc, h]
  · constructor <;> simp [sendText, sendTextBody, hc, h1, h2, h3]
  · simp [sendFileBody]

theorem c7_send_not_ready_amended_witness :
    envNotReady.clientConnected = true ∧
    ((sendTextBody
        { envNotReady with onWhatsAppExists := false,
                           sentMessage := some "M2",
                           parsedMessage := some "M2" }
      = .error connectionNotReadyMsg) ∧
     sendFileBody envNotReady = .error connectionNotReadyMsg ∧
     sendText envNotReady = none ∧ sendFile envNotReady = none) ∧
    (sendTextBody envNotOnWhatsApp = .ok none ∧
     sendText envNotOnWhatsApp = none) := by
  have h1 := c7_send_not_ready_amended envNotReady rfl
  have h2 := c7_send_not_ready_amended envNotOnWhatsApp rfl
  have ha := h1.1 (Or.inl rfl)
  exact ⟨rfl, ⟨ha.1 false (some "M2") (some "M2"), ha.2.1, ha.2.2.1,
    ha.2.2.2⟩, h2.2.1 rfl rfl rfl⟩

/-! ## Media download and transcoding inside `parseMessage`

Embeds the media block of `parseMessage` (src/whatsapp-baileys.ts lines
1042-1127).  The download loop is

`while (!mediaBuffer && retryCount < maxRetries) { try { mediaBuffer =
await downloadMediaMessage(...) } catch { retryCount++; if (retryCount <
maxRetries) await sleep(1000 * retryCount) } }` with `maxRetries = 3`.

`outcome i` is the result of the `(i+1)`-th `downloadMediaMessage`
call (`none` = the call throws).  The loop is phrased structurally on
the fuel `maxRetries - retryCount`, which is exactly the number of loop
iterations still permitted by the `retryCount < maxRetries` test.
Buffers are byte lists.

After a successful download: an empty buffer skips the file save; for
audio, `formatToOpusAudio` is attempted and on success the mimetype
becomes "audio/mpeg", while on a thrown conversion error the original
buffer and mimetype are kept.  The whole block sits in a `try`/`catch`
that only logs, and `parseMessage` returns the serialized message with
`ARQUIVO = null` whenever no file was stored. -/

/-- `this.maxRetries` of the media download loop. -/
def maxMediaRetries : Nat := 3

/-- The download retry loop.  Returns the downloaded buffer (if any),
the list of back-off sleeps performed (in ms, in order), and the number
of `downloadMediaMessage` calls made.  `fuel = maxMediaRetries -
retryCount` counts the iterations the `retryCount < maxRetries` test
still allows. -/
def downloadLoop (outcome : Nat → Option (List Nat)) :
    Nat → Nat → Option (List Nat) × List Nat × Nat
  | _, 0 => (none, [], 0)
  | retryCount, fuel + 1 =>
      match outcome retryCount with
      | some buf => (some buf, [], 1)
      | none =>
          let rc := retryCount + 1
          let rest := downloadLoop outcome rc fuel
          (rest.1,
           (if rc < maxMediaRetries then [1000 * rc] else []) ++ rest.2.1,
           rest.2.2 + 1)

/-- The loop as entered by `parseMessage`: `retryCount = 0`. -/
def downloadMediaWithRetry (outcome : Nat → Option (List Nat)) :
    Option (List Nat) × List Nat × Nat :=
  downloadLoop outcome 0 maxMediaRetries

/-- The post-download part of the media block: skip on a missing or
empty buffer; transcode audio, falling back to the original bytes when
`formatToOpusAudio` throws.  Returns the stored mimetype and bytes, or
`none` when no file is stored.  `transcoded` is the result of
`formatToOpusAudio` on the downloaded buffer (`none` = it throws). -/
def processDownloadedMedia (dl : Option (List Nat)) (isAudio : Bool)
    (transcoded : Option (List Nat)) (mimeType : String) :
    Option (String × List Nat) :=
  match dl with
  | none => none
  | some buf =>
      if buf.length = 0 then none
      else if isAudio then
        match transcoded with
        | some tbuf => some ("audio/mpeg", tbuf)
        | none => some (mimeType, buf)
      else some (mimeType, buf)

/-- The value `parseMessage` returns for a media-carrying message: the
serialized message (abstracted to its body) always comes back — the
media block is inside a `try`/`catch` that only logs — together with
the `ARQUIVO` content (`none` when no file could be stored). -/
def parseMessageWithMedia (body : String) (hasMedia clientPresent : Bool)
    (outcome : Nat → Option (List Nat)) (isAudio : Bool)
    (transcoded : Option (List Nat)) (mimeType : String) :
    Option (String × Option (String × List Nat)) :=
  if hasMedia && clientPresent then
    some (body,
      processDownloadedMedia (downloadMediaWithRetry outcome).1 isAudio
        transcoded mimeType)
  else
    some (body, none)

/-- C8: media download is attempted at most 3 times with sleeps of
`attempt * 1000` ms between consecutive attempts; when all 3 attempts
fail the message is still produced with a null attachment; and when the
media is audio but transcoding fails, the original bytes (and original
mimetype) are stored and the message is still produced. -/
theorem c8_media_retry (outcome : Nat → Option (List Nat)) (isAudio : Bool)
    (transcoded : Option (List Nat)) (mime body : String) (buf : List Nat) :
    (downloadMediaWithRetry outcome).2.2 ≤ 3 ∧
    ((∀ i, i < 3 → outcome i = none) →
      downloadMediaWithRetry outcome = (none, [1000, 2000], 3) ∧
      parseMessageWithMedia body true true outcome isAudio transcoded mime
        = some (body, none)) ∧
    (outcome 0 = none → outcome 1 = some buf →
      downloadMediaWithRetry outcome = (some buf, [1000], 2)) ∧
    (outcome 0 = some buf → buf ≠ [] → transcoded = none →
      parseMessageWithMedia body true true outcome true transcoded mime
        = some (body, some (mime, buf))) := by
  refine ⟨?_, fun hall => ⟨?_, ?_⟩, fun h0 h1 => ?_, fun h0 hne ht => ?_⟩
  · unfold downloadMediaWithRetry maxMediaRetries
    cases h0 : outcome 0 with
    | some b => simp [downloadLoop, h0]
    | none =>
        cases h1 : outcome 1 with
        | some b => simp [downloadLoop, maxMediaRetries, h0, h1]
        | none =>
            cases h2 : outcome 2 with
            | some b => simp [downloadLoop, maxMediaRetries, h0, h1, h2]
            | none => simp [downloadLoop, maxMediaRetries, h0, h1, h2]
  · have h0 := hall 0 (by omega)
    have h1 := hall 1 (by omega)
    have h2 := hall 2 (by omega)
    unfold downloadMediaWithRetry maxMediaRetries
    simp [downloadLoop, maxMediaRetries, h0, h1, h2]
  · have h0 := hall 0 (by omega)
    have h1 := hall 1 (by omega)
    have h2 := hall 2 (by omega)
    unfold parseMessageWithMedia processDownloadedMedia
      downloadMediaWithRetry maxMediaRetries
    simp [downloadLoop, maxMediaRetries, h0, h1, h2]
  · unfold downloadMediaWithRetry maxMediaRetries
    simp [downloadLoop, maxMediaRetries, h0, h1]
  · unfold parseMessageWithMedia processDownloadedMedia
      downloadMediaWithRetry maxMediaRetries
    simp [downloadLoop, maxMediaRetries, h0, hne, ht]

theorem c8_media_retry_witness :
    ((∀ i, i < 3 → (fun _ => (none : Option (List Nat))) i = none) ∧
     downloadMediaWithRetry (fun _ => none) = (none, [1000, 2000], 3) ∧
     parseMessageWithMedia "hi" true true (fun _ => none) true none
       "audio/ogg" = some ("hi", none)) ∧
    ((fun i => if i = 0 then none else some [7, 7]) 0 = none ∧
     downloadMediaWithRetry (fun i => if i = 0 then none else some [7, 7])
       = (some [7, 7], [1000], 2)) ∧
    ((fun _ => some [9]) 0 = some [9] ∧
     parseMessageWithMedia "voice" true true (fun _ => some [9]) true none
       "audio/ogg" = some ("voice", some ("audio/ogg", [9]))) := by
  have h1 := c8_media_retry (fun _ => none) true none "audio/ogg" "hi" []
  have h2 := c8_media_retry (fun i => if i = 0 then none else some [7, 7])
    true none "audio/ogg" "x" [7, 7]
  have h3 := c8_media_retry (fun _ => some [9]) true none "audio/ogg"
    "voice" [9]
  refine ⟨⟨fun i _ => rfl, ?_, ?_⟩, ⟨rfl, ?_⟩, ⟨rfl, ?_⟩⟩
  · exact (h1.2.1 (fun i _ => rfl)).1
  · exact (h1.2.1 (fun i _ => rfl)).2
  · exact h2.2.2.1 rfl rfl
  · exact h3.2.2.2 rfl (by decide) rfl

/-! ## Freshness filter on the live inbound path (`isMessageFromNow` /
`onReceiveMessage`)

Embeds `isMessageFromNow` (src/whatsapp-baileys.ts lines 946-954): the
provider timestamp is in epoch seconds, multiplied by 1000, and the
message counts as "from now" when `currentDate - messageDate` is at
most two minutes (a future-dated message gives a negative difference
and also counts).

Embeds the decision structure of the task enqueued by
`onReceiveMessage` (lines 1190-1285): `fromNow` and `isPhone` are
computed at processing time; `if (!isPhone) return` precedes
everything; the automatic-message rules run for every remaining
message; only `if (fromNow && !isBlackListed)` is the message parsed,
saved and POSTed to `/receive_message`.  A parse failure throws inside
the task and the surrounding `catch` only logs, so nothing is persisted
or forwarded in that case. -/

/-- `TWO_MINUTES = 1000 * 60 * 2`. -/
def TWO_MINUTES : Int := 1000 * 60 * 2

/-- `isMessageFromNow`: timestamps in epoch seconds, clock in epoch ms. -/
def isMessageFromNow (nowMs messageTimestampSec : Int) : Bool :=
  nowMs - messageTimestampSec * 1000 ≤ TWO_MINUTES

/-- Observable side effects of one run of the enqueued
message-processing task. -/
structure InboundActions where
  autoRulesRun : Bool
  persisted : Bool
  forwarded : Bool
deriving DecidableEq

/-- The guarded body of the task enqueued by `onReceiveMessage`. -/
def onReceiveMessageTask (nowMs messageTimestampSec : Int)
    (isPhone typeBlacklisted contactBlacklisted parseOk : Bool) :
    InboundActions :=
  if !isPhone then ⟨false, false, false⟩
  else
    let fromNow := isMessageFromNow nowMs messageTimestampSec
    let isBlackListed := typeBlacklisted || contactBlacklisted
    if fromNow && !isBlackListed then
      if parseOk then ⟨true, true, true⟩
      else ⟨true, false, false⟩
    else ⟨true, false, false⟩

/-- C9: a non-blacklisted inbound message with a valid phone number is
parsed, persisted and forwarded exactly when its timestamp is at most
two minutes before the processing-time clock; an older live message is
silently neither persisted nor forwarded while the automatic-reply
rules still run for it; and whenever such a task persists or forwards,
the freshness bound necessarily held. -/
theorem c9_freshness_filter (nowMs tsSec : Int) (parseOk : Bool) :
    (nowMs - tsSec * 1000 ≤ 120000 →
      onReceiveMessageTask nowMs tsSec true false false true
        = ⟨true, true, true⟩) ∧
    (nowMs - tsSec * 1000 > 120000 →
      onReceiveMessageTask nowMs tsSec true false false parseOk
        = ⟨true, false, false⟩) ∧
    (∀ tb cb : Bool,
      (onReceiveMessageTask nowMs tsSec true tb cb parseOk).persisted
          = true →
        nowMs - tsSec * 1000 ≤ 120000) ∧
    (∀ tb cb : Bool,
      (onReceiveMessageTask nowMs tsSec true tb cb parseOk).forwarded
          = true →
        nowMs - tsSec * 1000 ≤ 120000) := by
  have htm : TWO_MINUTES = 120000 := by decide
  refine ⟨fun h => ?_, fun h => ?_, fun tb cb h => ?_, fun tb cb h => ?_⟩
  · simp [onReceiveMessageTask, isMessageFromNow, htm, h]
  · have hnot : ¬ (nowMs - tsSec * 1000 ≤ TWO_MINUTES) := by
      rw [htm]; omega
    simp [onReceiveMessageTask, isMessageFromNow, hnot]
  · by_contra hc
    have hnot : ¬ (nowMs - tsSec * 1000 ≤ TWO_MINUTES) := by
      rw [htm]; omega
    simp [onReceiveMessageTask, isMessageFromNow, hnot] at h
  · by_contra hc
    have hnot : ¬ (nowMs - tsSec * 1000 ≤ TWO_MINUTES) := by
      rw [htm]; omega
    simp [onReceiveMessageTask, isMessageFromNow, hnot] at h

theorem c9_freshness_filter_witness :
    ((1000000 : Int) - 950 * 1000 ≤ 120000 ∧
     onReceiveMessageTask 1000000 950 true false false true
       = ⟨true, true, true⟩) ∧
    ((1000000 : Int) - 100 * 1000 > 120000 ∧
     onReceiveMessageTask 1000000 100 true false false true
       = ⟨true, false, false⟩) := by
  refine ⟨⟨by decide, ?_⟩, ⟨by decide, ?_⟩⟩
  · exact (c9_freshness_filter 1000000 950 true).1 (by decide)
  · exact (c9_freshness_filter 1000000 100 true).2.1 (by decide)

/-! ## Session readiness flags (`isReady` / `isAuthenticated`)

Embeds every write site of the two public flags of
`WhatsappBaileysInstance`:

* field initializers (lines 56-57): both start `false`;
* the `connection === "close"` branch (lines 293-294): both set `false`
  immediately, before any classification;
* the `connection === "open"` branch (lines 354-355): both set `true`;
* `close()` (lines 2088-2102): guarded by `if (this.client)`; inside
  the guard the handle is nulled and both flags are set `false`.

`connectToWhatsApp` assigns `this.client = makeWASocket(...)` without
touching the flags.  The `connection.update` events are emitted by the
live socket, so the open/close observations carry the precondition that
a client handle exists. -/

/-- The session fields involved: whether `this.client` is non-null, and
the two flags. -/
structure SessionFlags where
  client : Bool
  isReady : Bool
  isAuthenticated : Bool
deriving DecidableEq

/-- `close()`: a no-op when `this.client` is already null, otherwise
nulls the handle and clears both flags. -/
def closeSession (s : SessionFlags) : SessionFlags :=
  if s.client then ⟨false, false, false⟩ else s

/-- The operations that touch the handle or the flags. -/
inductive SessionStep : SessionFlags → SessionFlags → Prop
  | connect (s : SessionFlags) :
      SessionStep s ⟨true, s.isReady, s.isAuthenticated⟩
  | openEvent (s : SessionFlags) (h : s.client = true) :
      SessionStep s ⟨s.client, true, true⟩
  | closeEvent (s : SessionFlags) (h : s.client = true) :
      SessionStep s ⟨s.client, false, false⟩
  | closeCall (s : SessionFlags) : SessionStep s (closeSession s)

/-- States reachable from the freshly constructed instance. -/
inductive SessionReach : SessionFlags → Prop
  | init : SessionReach ⟨false, false, false⟩
  | step {s s' : SessionFlags} :
      SessionReach s → SessionStep s s' → SessionReach s'

/-- The session invariant: the two flags agree, and with no live handle
both are false. -/
def SessionInv (s : SessionFlags) : Prop :=
  s.isReady = s.isAuthenticated ∧
  (s.client = false → s.isReady = false ∧ s.isAuthenticated = false)

theorem sessionInv_step {s s' : SessionFlags} (hinv : SessionInv s)
    (hstep : SessionStep s s') : SessionInv s' := by
  obtain ⟨heq, hnull⟩ := hinv
  cases hstep with
  | connect => exact ⟨heq, by simp⟩
  | openEvent h => exact ⟨rfl, by simp [h]⟩
  | closeEvent h => exact ⟨rfl, fun _ => ⟨rfl, rfl⟩⟩
  | closeCall =>
      unfold closeSession
      by_cases hcl : s.client
      · simp only [hcl, if_true]
        exact ⟨rfl, fun _ => ⟨rfl, rfl⟩⟩
      · simpa [hcl] using ⟨heq, hnull⟩

theorem sessionInv_reach {s : SessionFlags} (h : SessionReach s) :
    SessionInv s := by
  induction h with
  | init => exact ⟨rfl, fun _ => ⟨rfl, rfl⟩⟩
  | step _ hstep ih => exact sessionInv_step ih hstep

/-- C10: in every reachable session state `isReady` and
`isAuthenticated` are equal; they start false together, the open
transition sets both true, the close observation sets both false, a
`close()` call always results in both being false, and no step ever
separates them. -/
theorem c10_flags_always_equal (s : SessionFlags) (h : SessionReach s) :
    s.isReady = s.isAuthenticated ∧
    (⟨s.client, true, true⟩ : SessionFlags).isReady
      = (⟨s.client, true, true⟩ : SessionFlags).isAuthenticated ∧
    (closeSession s).isReady = false ∧
    (closeSession s).isAuthenticated = false ∧
    (∀ s', SessionStep s s' → s'.isReady = s'.isAuthenticated) := by
  obtain ⟨heq, hnull⟩ := sessionInv_reach h
  refine ⟨heq, rfl, ?_, ?_, fun s' hstep => (sessionInv_step ⟨heq, hnull⟩ hstep).1⟩
  · unfold closeSession
    by_cases hcl : s.client
    · simp [hcl]
    · simp only [hcl, if_neg, Bool.false_eq_true, if_false]
      exact (hnull (by simpa using hcl)).1
  · unfold closeSession
    by_cases hcl : s.client
    · simp [hcl]
    · simp only [hcl, if_neg, Bool.false_eq_true, if_false]
      exact (hnull (by simpa using hcl)).2

theorem c10_flags_always_equal_witness :
    ((⟨true, true, true⟩ : SessionFlags).isReady
      = (⟨true, true, true⟩ : SessionFlags).isAuthenticated) ∧
    (closeSession ⟨true, true, true⟩).isReady = false ∧
    (closeSession ⟨true, true, true⟩).isAuthenticated = false := by
  have hreach : SessionReach ⟨true, true, true⟩ :=
    SessionReach.step
      (SessionReach.step SessionReach.init
        (SessionStep.connect ⟨false, false, false⟩))
      (SessionStep.openEvent ⟨true, false, false⟩ rfl)
  have h := c10_flags_always_equal ⟨true, true, true⟩ hreach
  exact ⟨h.1, h.2.2.1, h.2.2.2.1⟩

end WAClient
